import Mathlib

set_option maxRecDepth 16384

/-!
Verification of the deployment-tool repository: an App Setup Tool
(src/app-setup-cli.js) that scaffolds Docker artifacts and a metadata
descriptor, and a Site Manager Tool (src/nginx/nginx-cli.js) that manages
Nginx virtual-host configuration files.  The JavaScript string templates,
file-placement steps and external-command control flow are embedded
shallowly: template literals become Lean string concatenations, the two
configuration directories become finite maps, and the success of each
shelled-out command is an oracle boolean.
-/

namespace DeployTool

/-! ## String machinery

The JS code manipulates strings; we reason about them through their
character lists.  `containsStr n h` states that `n` occurs as a
contiguous substring of `h`. -/

theorem data_app (a b : String) : (a ++ b).data = a.data ++ b.data := rfl

theorem data_eps : ("" : String).data = [] := rfl

def containsStr (needle haystack : String) : Prop :=
  needle.data <:+: haystack.data

instance (n h : String) : Decidable (containsStr n h) :=
  inferInstanceAs (Decidable (n.data <:+: h.data))

theorem inf_of_pre {α} {l₁ l₂ : List α} (h : l₁ <+: l₂) : l₁ <:+: l₂ := by
  obtain ⟨t, rfl⟩ := h
  exact ⟨[], t, rfl⟩

theorem inf_of_suf {α} {l₁ l₂ : List α} (h : l₁ <:+ l₂) : l₁ <:+: l₂ := by
  obtain ⟨s, rfl⟩ := h
  exact ⟨s, [], by simp⟩

theorem app_right_sub {α} (A : List α) {N B : List α} (h : N <:+: B) :
    N <:+: A ++ B := by
  obtain ⟨s, t, rfl⟩ := h
  exact ⟨A ++ s, t, by simp⟩

theorem app_left_sub {α} (B : List α) {N A : List α} (h : N <:+: A) :
    N <:+: A ++ B := by
  obtain ⟨s, t, rfl⟩ := h
  exact ⟨s, t ++ B, by simp⟩

theorem take3_sub {α} (x y z t : List α) : x ++ (y ++ z) <:+: x ++ (y ++ (z ++ t)) :=
  ⟨[], t, by simp⟩

theorem pre_decomp {α} {xs ys zs : List α} (h : xs <+: ys ++ zs) :
    xs <+: ys ∨ ∃ x₂, xs = ys ++ x₂ ∧ x₂ <+: zs := by
  obtain ⟨t, ht⟩ := h
  rcases List.append_eq_append_iff.mp ht with ⟨a, ha, _⟩ | ⟨c, hc, hz⟩
  · exact Or.inl ⟨a, ha.symm⟩
  · exact Or.inr ⟨c, hc, ⟨t, hz.symm⟩⟩

theorem suf_decomp {α} {xs ys zs : List α} (h : xs <:+ ys ++ zs) :
    xs <:+ zs ∨ ∃ x₁, xs = x₁ ++ zs ∧ x₁ <:+ ys := by
  obtain ⟨s, hs⟩ := h
  rcases List.append_eq_append_iff.mp hs with ⟨a, hy, hx⟩ | ⟨c, _, hz⟩
  · exact Or.inr ⟨a, hx, ⟨s, hy.symm⟩⟩
  · exact Or.inl ⟨c, hz.symm⟩

theorem app_inf_decomp {α} {xs ys zs : List α} (h : xs <:+: ys ++ zs) :
    xs <:+: ys ∨ xs <:+: zs ∨
      ∃ x₁ x₂, xs = x₁ ++ x₂ ∧ x₁ ≠ [] ∧ x₂ ≠ [] ∧ x₁ <:+ ys ∧ x₂ <+: zs := by
  obtain ⟨s, t, hst⟩ := h
  have hu : xs ++ t <:+ ys ++ zs := ⟨s, by rw [← List.append_assoc]; exact hst⟩
  rcases suf_decomp hu with h1 | ⟨x₁, hx1, hx1s⟩
  · obtain ⟨s₂, hs₂⟩ := h1
    exact Or.inr (Or.inl ⟨s₂, t, by rw [List.append_assoc]; exact hs₂⟩)
  · have hp : xs <+: x₁ ++ zs := ⟨t, hx1⟩
    rcases pre_decomp hp with h2 | ⟨x₂, hx2, hx2p⟩
    · obtain ⟨t₂, ht₂⟩ := h2
      obtain ⟨s₂, hs₂⟩ := hx1s
      exact Or.inl ⟨s₂, t₂, by rw [List.append_assoc, ht₂]; exact hs₂⟩
    · by_cases h1e : x₁ = []
      · subst h1e
        simp only [List.nil_append] at hx2
        exact Or.inr (Or.inl (hx2 ▸ inf_of_pre hx2p))
      · by_cases h2e : x₂ = []
        · subst h2e
          simp only [List.append_nil] at hx2
          exact Or.inl (hx2 ▸ inf_of_suf hx1s)
        · exact Or.inr (Or.inr ⟨x₁, x₂, hx2, h1e, h2e, hx1s, hx2p⟩)

theorem head_mem_self {α} {l : List α} {a : α} (h : l.head? = some a) : a ∈ l := by
  cases l with
  | nil => simp at h
  | cons b t =>
    simp only [List.head?_cons, Option.some.injEq] at h
    simp [h]

theorem head_mem_take_one {α} {l : List α} {a : α} (h : l.head? = some a) :
    a ∈ l.take 1 := by
  cases l with
  | nil => simp at h
  | cons b t =>
    simp only [List.head?_cons, Option.some.injEq] at h
    simp [List.take, h]

theorem suf_last_eq {α} {x l : List α} (hx : x ≠ []) (h : x <:+ l) :
    l.getLast? = x.getLast? := by
  obtain ⟨s, rfl⟩ := h
  cases hg : x.getLast? with
  | none => exact absurd (List.getLast?_eq_none_iff.mp hg) hx
  | some a => rw [List.getLast?_append, hg]; rfl

theorem pre_head_eq {α} {x l : List α} (hx : x ≠ []) (h : x <+: l) :
    l.head? = x.head? := by
  obtain ⟨t, rfl⟩ := h
  cases hg : x.head? with
  | none => exact absurd (List.head?_eq_none_iff.mp hg) hx
  | some a => rw [List.head?_append, hg]; rfl

/-- A needle `N` cannot occur in a haystack of the form
`A ++ p ++ B ++ q ++ C` when it occurs in none of the literal chunks
`A`, `B`, `C`, the separators `p`, `q` consist of digits only,
`N` is nonempty and does not start with a digit, and the last characters
of `A` and `B` do not occur in `N` at all.  This is the workhorse for
proving that a generated Nginx configuration with numeric ports spliced
in contains no `server_name` and no `return 301`. -/
theorem glue_not_sub (N A B C p q H : List Char)
    (hH : H = A ++ (p ++ (B ++ (q ++ C))))
    (hpd : ∀ c ∈ p, c.isDigit = true) (hqd : ∀ c ∈ q, c.isDigit = true)
    (hN : N ≠ [])
    (hNhd : ∀ c ∈ N.take 1, c.isDigit = false)
    (hA : ¬ N <:+: A) (hB : ¬ N <:+: B) (hC : ¬ N <:+: C)
    (hAl : ∀ c ∈ N, A.getLast? ≠ some c)
    (hBl : ∀ c ∈ N, B.getLast? ≠ some c) :
    ¬ N <:+: H := by
  have hNh : ∀ c, N.head? = some c → c.isDigit = false := fun c hc =>
    hNhd c (head_mem_take_one hc)
  subst hH
  intro h
  have straddleLit : ∀ (L R : List Char), (∀ c ∈ N, L.getLast? ≠ some c) →
      (∃ x₁ x₂, N = x₁ ++ x₂ ∧ x₁ ≠ [] ∧ x₂ ≠ [] ∧ x₁ <:+ L ∧ x₂ <+: R) → False := by
    intro L R hL hEx
    obtain ⟨x₁, x₂, hx, h1, _, hsuf, _⟩ := hEx
    cases hgl : x₁.getLast? with
    | none => exact h1 (List.getLast?_eq_none_iff.mp hgl)
    | some c =>
      have hcL : L.getLast? = some c := (suf_last_eq h1 hsuf).trans hgl
      have hcN : c ∈ N := by
        rw [hx]
        exact List.mem_append_left x₂ (List.mem_of_getLast?_eq_some hgl)
      exact hL c hcN hcL
  have straddleDig : ∀ (P R : List Char), (∀ c ∈ P, c.isDigit = true) →
      (∃ x₁ x₂, N = x₁ ++ x₂ ∧ x₁ ≠ [] ∧ x₂ ≠ [] ∧ x₁ <:+ P ∧ x₂ <+: R) → False := by
    intro P R hPd hEx
    obtain ⟨x₁, x₂, hx, h1, _, hsuf, _⟩ := hEx
    cases hh : x₁.head? with
    | none => exact h1 (List.head?_eq_none_iff.mp hh)
    | some c =>
      have hNc : N.head? = some c := by
        rw [hx, pre_head_eq h1 ⟨x₂, rfl⟩]
        exact hh
      have hd : c.isDigit = true := hPd c (hsuf.subset (head_mem_self hh))
      rw [hNh c hNc] at hd
      exact Bool.false_ne_true hd
  have insideDig : ∀ (P : List Char), (∀ c ∈ P, c.isDigit = true) →
      N <:+: P → False := by
    intro P hPd hNP
    cases hh : N.head? with
    | none => exact hN (List.head?_eq_none_iff.mp hh)
    | some c =>
      have hd : c.isDigit = true := hPd c (hNP.subset (head_mem_self hh))
      rw [hNh c hh] at hd
      exact Bool.false_ne_true hd
  rcases app_inf_decomp h with h1 | h2 | hS
  · exact hA h1
  · rcases app_inf_decomp h2 with h3 | h4 | hS
    · exact insideDig p hpd h3
    · rcases app_inf_decomp h4 with h5 | h6 | hS
      · exact hB h5
      · rcases app_inf_decomp h6 with h7 | h8 | hS
        · exact insideDig q hqd h7
        · exact hC h8
        · exact straddleDig q C hqd hS
      · exact straddleLit B (q ++ C) hBl hS
    · exact straddleDig p (B ++ (q ++ C)) hpd hS
  · exact straddleLit A (p ++ (B ++ (q ++ C))) hAl hS

/-! ## Site Manager Tool: the Nginx configuration template

The template literal of generateNginxConfig (src/nginx/nginx-cli.js,
lines 147-198), transcribed chunk by chunk.  Concatenating the chunks in
order reproduces the JS template text exactly; literal braces are
written with the escapes \x7b and \x7d. -/

def nc1 : String := "\nserver \x7b\n    "

def snPre : String := "server_name "

def snPost : String := ";"

def nc2 : String := "\n\n    location / \x7b\n        proxy_pass http://localhost:"

def nc3 : String := ";\n        proxy_set_header Host $host;\n        proxy_set_header X-Real-IP $remote_addr;\n    \x7d\n\n    location /api \x7b\n        proxy_pass http://localhost:"

def nc4 : String := ";\n        proxy_set_header Host $host;\n        proxy_set_header X-Real-IP $remote_addr;\n    \x7d\n"

def sslA : String := "\n    listen 443 ssl;\n    ssl_certificate "

def sslB : String := "/etc/letsencrypt/live/"

def sslC : String := "/fullchain.pem"

def sslD : String := ";\n    ssl_certificate_key "

def sslF : String := "/privkey.pem"

def sslG : String := ";\n"

def noSslChunk : String := "\n    listen 80;\n"

def closeChunk : String := "\n\x7d\n"

def rd1 : String := "\nserver \x7b\n    listen 80;\n    server_name "

def rd2 : String := ";\n    return 301 https://$host$request_uri;\n\x7d\n"

/-- Embedding of generateNginxConfig (nginx-cli.js lines 147-198). -/
def generateNginxConfig (domain frontendPort backendPort : String)
    (useDomain useSSL : Bool) : String :=
  let config := nc1 ++ (if useDomain then snPre ++ domain ++ snPost else "")
    ++ nc2 ++ frontendPort ++ nc3 ++ backendPort ++ nc4
  let config := config ++ (if useSSL then
      sslA ++ sslB ++ domain ++ sslC ++ sslD ++ sslB ++ domain ++ sslF ++ sslG
    else noSslChunk)
  let config := config ++ closeChunk
  let config := config ++ (if useDomain && useSSL then rd1 ++ domain ++ rd2 else "")
  config

/-- Embedding of the configName computation in addSite (nginx-cli.js
line 82). -/
def configName (domain frontendPort backendPort : String) (useDomain : Bool) :
    String :=
  if useDomain then domain else "site_" ++ frontendPort ++ "_" ++ backendPort

theorem contains_trans {N M H : String} (h1 : containsStr N M)
    (h2 : containsStr M H) : containsStr N H := by
  obtain ⟨s, t, hst⟩ := h1
  obtain ⟨u, v, huv⟩ := h2
  exact ⟨u ++ s, t ++ v, by rw [← huv, ← hst]; simp⟩

/-- Effect trace of one addSite run (nginx-cli.js lines 84-96): write the
configuration into sites-available, ensure the symlink in sites-enabled,
run certbot only when both useDomain and useSSL hold, then reload. -/
inductive SiteEvent where
  | outputFile (path content : String)
  | ensureSymlink (srcpath dstpath : String)
  | certbot (domain : String)
  | reload
deriving DecidableEq

/-- Ordered external side effects performed by addSite after the
metadata has been read (nginx-cli.js lines 74-96). -/
def addSiteEvents (domain frontendPort backendPort : String)
    (useDomain useSSL : Bool) : List SiteEvent :=
  [SiteEvent.outputFile
      ("/etc/nginx/sites-available/" ++ configName domain frontendPort backendPort useDomain)
      (generateNginxConfig domain frontendPort backendPort useDomain useSSL),
   SiteEvent.ensureSymlink
      ("/etc/nginx/sites-available/" ++ configName domain frontendPort backendPort useDomain)
      ("/etc/nginx/sites-enabled/" ++ configName domain frontendPort backendPort useDomain)]
  ++ (if useDomain && useSSL then [SiteEvent.certbot domain] else [])
  ++ [SiteEvent.reload]

/-! ### Helper containment lemmas about the generated configuration -/

theorem listen80_sub (domain fp bp : String) :
    containsStr "listen 80;" (generateNginxConfig domain fp bp false false) :=
  contains_trans (show containsStr "listen 80;" noSslChunk by decide)
    ⟨nc1.data ++ nc2.data ++ fp.data ++ nc3.data ++ bp.data ++ nc4.data, closeChunk.data,
      by simp [generateNginxConfig, data_app, data_eps, List.append_assoc]⟩

theorem listen443_sub (domain fp bp : String) :
    containsStr "listen 443 ssl;" (generateNginxConfig domain fp bp false true) :=
  contains_trans (show containsStr "listen 443 ssl;" sslA by decide)
    ⟨nc1.data ++ nc2.data ++ fp.data ++ nc3.data ++ bp.data ++ nc4.data,
     sslB.data ++ domain.data ++ sslC.data ++ sslD.data ++ sslB.data ++ domain.data
       ++ sslF.data ++ sslG.data ++ closeChunk.data,
     by simp [generateNginxConfig, data_app, data_eps, List.append_assoc]⟩

theorem no_server_name_sub (domain fp bp : String)
    (hfp : ∀ c ∈ fp.data, c.isDigit = true)
    (hbp : ∀ c ∈ bp.data, c.isDigit = true) :
    ¬ containsStr "server_name" (generateNginxConfig domain fp bp false false) := by
  show ¬ ("server_name" : String).data <:+: _
  exact glue_not_sub _ (nc1.data ++ nc2.data) nc3.data
    (nc4.data ++ (noSslChunk.data ++ closeChunk.data)) fp.data bp.data _
    (by simp [generateNginxConfig, data_app, data_eps, List.append_assoc])
    hfp hbp (by decide) (by decide) (by decide) (by decide) (by decide)
    (by decide) (by decide)

theorem no_return301_sub (domain fp bp : String)
    (hfp : ∀ c ∈ fp.data, c.isDigit = true)
    (hbp : ∀ c ∈ bp.data, c.isDigit = true) :
    ¬ containsStr "return 301" (generateNginxConfig domain fp bp false false) := by
  show ¬ ("return 301" : String).data <:+: _
  exact glue_not_sub _ (nc1.data ++ nc2.data) nc3.data
    (nc4.data ++ (noSslChunk.data ++ closeChunk.data)) fp.data bp.data _
    (by simp [generateNginxConfig, data_app, data_eps, List.append_assoc])
    hfp hbp (by decide) (by decide) (by decide) (by decide) (by decide)
    (by decide) (by decide)

/-! ### Claims C1, C3, C10 -/

/-- C1 counterexample: the claim asserts a listen 80; line regardless of
the useSSL toggle, but with useDomain=false and useSSL=true the generated
configuration has no listen 80; line — it listens on 443 ssl instead. -/
theorem noDomain_ssl_no_listen80_cex :
    ¬ containsStr "listen 80;"
        (generateNginxConfig "example.com" "3000" "5000" false true)
    ∧ containsStr "listen 443 ssl;"
        (generateNginxConfig "example.com" "3000" "5000" false true) := by
  constructor <;> decide

/-- C1 (amended): with useDomain=false the configuration file is always
named site_frontendPort_backendPort; when additionally useSSL=false its
content has a listen 80; line and (for numeric ports) no server_name and
no return 301 redirect; when useSSL=true it has listen 443 ssl; instead
of listen 80;. -/
theorem addSite_noDomain_config (domain fp bp : String) (ssl : Bool)
    (hfp : ∀ c ∈ fp.data, c.isDigit = true)
    (hbp : ∀ c ∈ bp.data, c.isDigit = true) :
    configName domain fp bp false = "site_" ++ fp ++ "_" ++ bp
    ∧ (ssl = false →
        containsStr "listen 80;" (generateNginxConfig domain fp bp false ssl)
        ∧ ¬ containsStr "server_name" (generateNginxConfig domain fp bp false ssl)
        ∧ ¬ containsStr "return 301" (generateNginxConfig domain fp bp false ssl))
    ∧ (ssl = true →
        containsStr "listen 443 ssl;" (generateNginxConfig domain fp bp false ssl)) := by
  refine ⟨rfl, fun hss => ?_, fun hss => ?_⟩
  · subst hss
    exact ⟨listen80_sub domain fp bp, no_server_name_sub domain fp bp hfp hbp,
      no_return301_sub domain fp bp hfp hbp⟩
  · subst hss
    exact listen443_sub domain fp bp

/-- C1 witness: the amended statement applied at the concrete metadata
(domain example.com, ports 3000 and 5000) with useSSL=false. -/
theorem addSite_noDomain_config_witness :
    configName "example.com" "3000" "5000" false = "site_" ++ "3000" ++ "_" ++ "5000"
    ∧ containsStr "listen 80;" (generateNginxConfig "example.com" "3000" "5000" false false)
    ∧ ¬ containsStr "server_name" (generateNginxConfig "example.com" "3000" "5000" false false)
    ∧ ¬ containsStr "return 301" (generateNginxConfig "example.com" "3000" "5000" false false) := by
  obtain ⟨h1, h2, -⟩ := addSite_noDomain_config "example.com" "3000" "5000" false
    (by decide) (by decide)
  obtain ⟨a, b, c⟩ := h2 rfl
  exact ⟨h1, a, b, c⟩

/-- C3: add-site on metadata with domain example.com, useDomain=true and
useSSL=true produces the file named example.com containing the
server_name example.com; line, the listen 443 ssl; line, and a second
server block that listens on 80 for the same domain and returns a 301
redirect to https. -/
theorem addSite_domain_ssl_config (fp bp : String) :
    configName "example.com" fp bp true = "example.com"
    ∧ containsStr "server_name example.com;"
        (generateNginxConfig "example.com" fp bp true true)
    ∧ containsStr "listen 443 ssl;"
        (generateNginxConfig "example.com" fp bp true true)
    ∧ containsStr
        "\nserver \x7b\n    listen 80;\n    server_name example.com;\n    return 301 https://$host$request_uri;\n\x7d\n"
        (generateNginxConfig "example.com" fp bp true true) := by
  refine ⟨rfl, ?_, ?_, ?_⟩
  · exact contains_trans
      (show containsStr "server_name example.com;" (snPre ++ "example.com" ++ snPost) by decide)
      ⟨nc1.data,
       nc2.data ++ fp.data ++ nc3.data ++ bp.data ++ nc4.data ++ sslA.data ++ sslB.data
         ++ ("example.com" : String).data ++ sslC.data ++ sslD.data ++ sslB.data
         ++ ("example.com" : String).data ++ sslF.data ++ sslG.data ++ closeChunk.data
         ++ rd1.data ++ ("example.com" : String).data ++ rd2.data,
       by simp [generateNginxConfig, data_app, data_eps, List.append_assoc]⟩
  · exact contains_trans
      (show containsStr "listen 443 ssl;" sslA by decide)
      ⟨nc1.data ++ snPre.data ++ ("example.com" : String).data ++ snPost.data ++ nc2.data
         ++ fp.data ++ nc3.data ++ bp.data ++ nc4.data,
       sslB.data ++ ("example.com" : String).data ++ sslC.data ++ sslD.data ++ sslB.data
         ++ ("example.com" : String).data ++ sslF.data ++ sslG.data ++ closeChunk.data
         ++ rd1.data ++ ("example.com" : String).data ++ rd2.data,
       by simp [generateNginxConfig, data_app, data_eps, List.append_assoc]⟩
  · exact contains_trans
      (show containsStr
        "\nserver \x7b\n    listen 80;\n    server_name example.com;\n    return 301 https://$host$request_uri;\n\x7d\n"
        (rd1 ++ "example.com" ++ rd2) by decide)
      ⟨nc1.data ++ snPre.data ++ ("example.com" : String).data ++ snPost.data ++ nc2.data
         ++ fp.data ++ nc3.data ++ bp.data ++ nc4.data ++ sslA.data ++ sslB.data
         ++ ("example.com" : String).data ++ sslC.data ++ sslD.data ++ sslB.data
         ++ ("example.com" : String).data ++ sslF.data ++ sslG.data ++ closeChunk.data,
       [],
       by simp [generateNginxConfig, data_app, data_eps, List.append_assoc]⟩

/-- C10: with useSSL=true and useDomain=false the configuration is still
written under the port-synthesized name, listens on 443 ssl and
references the letsencrypt certificate paths built from the metadata
domain, while certbot is invoked only when both toggles are true. -/
theorem addSite_ssl_noDomain_config (domain fp bp : String) :
    configName domain fp bp false = "site_" ++ fp ++ "_" ++ bp
    ∧ containsStr "listen 443 ssl;" (generateNginxConfig domain fp bp false true)
    ∧ containsStr ("/etc/letsencrypt/live/" ++ domain ++ "/fullchain.pem")
        (generateNginxConfig domain fp bp false true)
    ∧ containsStr ("/etc/letsencrypt/live/" ++ domain ++ "/privkey.pem")
        (generateNginxConfig domain fp bp false true)
    ∧ (∀ d, SiteEvent.certbot d ∉ addSiteEvents domain fp bp false true)
    ∧ (∀ uD uS : Bool,
        SiteEvent.certbot domain ∈ addSiteEvents domain fp bp uD uS ↔
          uD = true ∧ uS = true) := by
  refine ⟨rfl, listen443_sub domain fp bp, ?_, ?_, ?_, ?_⟩
  · exact ⟨nc1.data ++ nc2.data ++ fp.data ++ nc3.data ++ bp.data ++ nc4.data ++ sslA.data,
      sslD.data ++ sslB.data ++ domain.data ++ sslF.data ++ sslG.data ++ closeChunk.data,
      by simp [generateNginxConfig, sslB, sslC, data_app, data_eps, List.append_assoc]⟩
  · exact ⟨nc1.data ++ nc2.data ++ fp.data ++ nc3.data ++ bp.data ++ nc4.data ++ sslA.data
        ++ sslB.data ++ domain.data ++ sslC.data ++ sslD.data,
      sslG.data ++ closeChunk.data,
      by simp [generateNginxConfig, sslB, sslF, data_app, data_eps, List.append_assoc]⟩
  · intro d
    simp [addSiteEvents]
  · intro uD uS
    cases uD <;> cases uS <;> simp [addSiteEvents]

/-! ## Site Manager Tool: filesystem state

The two configuration directories are modelled as finite maps from file
name to content (sites-available) and from link name to symlink target
(sites-enabled). -/

structure NginxState where
  available : String → Option String
  enabled : String → Option String

def availablePath (name : String) : String := "/etc/nginx/sites-available/" ++ name

def enabledPath (name : String) : String := "/etc/nginx/sites-enabled/" ++ name

/-- Modelled after fs-extra outputFile (nginx-cli.js line 84): writes the
file, overwriting any existing entry of that name. -/
def outputFileMap (m : String → Option String) (name content : String) :
    String → Option String :=
  fun n => if n = name then some content else m n

/-- Modelled after fs-extra ensureSymlink (nginx-cli.js line 88): creates
the symlink only when no entry already exists under the destination name;
an existing entry is left in place. -/
def ensureSymlinkMap (m : String → Option String) (name target : String) :
    String → Option String :=
  fun n => if n = name then some ((m name).getD target) else m n

/-- Filesystem effect of one addSite run (nginx-cli.js lines 82-88). -/
def addSiteState (s : NginxState) (domain fp bp : String)
    (useDomain useSSL : Bool) : NginxState :=
  { available := outputFileMap s.available (configName domain fp bp useDomain)
      (generateNginxConfig domain fp bp useDomain useSSL),
    enabled := ensureSymlinkMap s.enabled (configName domain fp bp useDomain)
      (availablePath (configName domain fp bp useDomain)) }

/-- Filesystem effect of one removeSite run (nginx-cli.js lines 118-121);
fs.remove is a no-op when the path does not exist, so the transition is
total. -/
def removeSiteState (s : NginxState) (domain : String) : NginxState :=
  { available := fun n => if n = domain then none else s.available n,
    enabled := fun n => if n = domain then none else s.enabled n }

/-- A state is consistent when every symlink in sites-enabled points at
the sites-available file of the same name and that file exists. -/
def siteInvariant (s : NginxState) : Prop :=
  ∀ n t, s.enabled n = some t →
    t = availablePath n ∧ (s.available n).isSome = true

def emptyNginxState : NginxState :=
  { available := fun _ => none, enabled := fun _ => none }

/-- C2: starting from any consistent state, add-site writes the
configuration file (overwriting) and leaves the enabled symlink of the
same name pointing at it, remove-site clears both entries, and both
operations preserve the consistency invariant. -/
theorem addRemove_invariant (s : NginxState) (hs : siteInvariant s)
    (domain fp bp name : String) (useDomain useSSL : Bool) :
    siteInvariant (addSiteState s domain fp bp useDomain useSSL)
    ∧ (addSiteState s domain fp bp useDomain useSSL).available
        (configName domain fp bp useDomain)
        = some (generateNginxConfig domain fp bp useDomain useSSL)
    ∧ (addSiteState s domain fp bp useDomain useSSL).enabled
        (configName domain fp bp useDomain)
        = some (availablePath (configName domain fp bp useDomain))
    ∧ siteInvariant (removeSiteState s name)
    ∧ (removeSiteState s name).available name = none
    ∧ (removeSiteState s name).enabled name = none := by
  refine ⟨?_, ?_, ?_, ?_, ?_, ?_⟩
  · intro n t ht
    by_cases hn : n = configName domain fp bp useDomain
    · subst hn
      simp only [addSiteState, ensureSymlinkMap, if_pos rfl, Option.some.injEq] at ht
      constructor
      · cases hsn : s.enabled (configName domain fp bp useDomain) with
        | none => rw [hsn] at ht; simpa using ht.symm
        | some t0 =>
          rw [hsn] at ht
          simp at ht
          subst ht
          exact (hs _ _ hsn).1
      · simp [addSiteState, outputFileMap]
    · simp only [addSiteState, ensureSymlinkMap, if_neg hn] at ht
      refine ⟨(hs n t ht).1, ?_⟩
      simpa [addSiteState, outputFileMap, hn] using (hs n t ht).2
  · simp [addSiteState, outputFileMap]
  · simp only [addSiteState, ensureSymlinkMap, if_pos rfl]
    cases hsn : s.enabled (configName domain fp bp useDomain) with
    | none => simp
    | some t0 => simpa using (hs _ t0 hsn).1
  · intro n t ht
    by_cases hn : n = name
    · simp [removeSiteState, hn] at ht
    · simp only [removeSiteState, if_neg hn] at ht
      exact ⟨(hs n t ht).1, by simpa [removeSiteState, hn] using (hs n t ht).2⟩
  · simp [removeSiteState]
  · simp [removeSiteState]

/-- C2 witness: the invariant theorem applied to the empty state with
concrete metadata. -/
theorem addRemove_invariant_witness :
    siteInvariant (addSiteState emptyNginxState "example.com" "3000" "5000" true true)
    ∧ (addSiteState emptyNginxState "example.com" "3000" "5000" true true).available
        (configName "example.com" "3000" "5000" true)
        = some (generateNginxConfig "example.com" "3000" "5000" true true)
    ∧ (addSiteState emptyNginxState "example.com" "3000" "5000" true true).enabled
        (configName "example.com" "3000" "5000" true)
        = some (availablePath (configName "example.com" "3000" "5000" true))
    ∧ siteInvariant (removeSiteState emptyNginxState "example.com")
    ∧ (removeSiteState emptyNginxState "example.com").available "example.com" = none
    ∧ (removeSiteState emptyNginxState "example.com").enabled "example.com" = none :=
  addRemove_invariant emptyNginxState (fun _ _ h => Option.noConfusion h)
    "example.com" "3000" "5000" "example.com" true true

/-- C8: remove-site keyed on any identifier clears both directory entries,
is idempotent, and on a state where neither entry exists it is an exact
no-op (and, the transition being total, it never raises an error). -/
theorem removeSite_idempotent (s : NginxState) (name : String) :
    (removeSiteState s name).available name = none
    ∧ (removeSiteState s name).enabled name = none
    ∧ removeSiteState (removeSiteState s name) name = removeSiteState s name
    ∧ (s.available name = none → s.enabled name = none →
        removeSiteState s name = s) := by
  refine ⟨by simp [removeSiteState], by simp [removeSiteState], ?_, ?_⟩
  · cases s with
  | mk av en =>
    simp only [removeSiteState, NginxState.mk.injEq]
    constructor <;> funext n <;> by_cases hn : n = name <;> simp [hn]
  · intro h1 h2
    cases s with
  | mk av en =>
    simp only [removeSiteState, NginxState.mk.injEq]
    constructor <;> funext n <;> by_cases hn : n = name <;> simp_all [hn]

/-- C8 witness: remove-site applied twice to the empty state, where the
entries are already absent. -/
theorem removeSite_idempotent_witness :
    (removeSiteState emptyNginxState "a").available "a" = none
    ∧ removeSiteState (removeSiteState emptyNginxState "a") "a"
        = removeSiteState emptyNginxState "a"
    ∧ removeSiteState emptyNginxState "a" = emptyNginxState :=
  ⟨(removeSite_idempotent emptyNginxState "a").1,
   (removeSite_idempotent emptyNginxState "a").2.2.1,
   (removeSite_idempotent emptyNginxState "a").2.2.2 rfl rfl⟩

/-! ## Site Manager Tool: listSites -/

def tagEnabled (site : String) : String := "- " ++ site ++ " (enabled)"

def tagDisabled (site : String) : String := "- " ++ site ++ " (disabled)"

/-- Lines printed by listSites (nginx-cli.js lines 128-145) given the two
directory listings: the header, each enabled entry, the second header,
then each available entry that is not in the enabled listing. -/
def listSitesOutput (sitesAvailable sitesEnabled : List String) : List String :=
  "Active sites:" :: (sitesEnabled.map tagEnabled
    ++ "\nAvailable sites:"
        :: (sitesAvailable.filter (fun site => !sitesEnabled.contains site)).map tagDisabled)

theorem tagEnabled_inj : Function.Injective tagEnabled := by
  intro a b h
  have h2 := congrArg String.data h
  simp only [tagEnabled, data_app, List.append_assoc] at h2
  exact String.ext (List.append_cancel_right (List.append_cancel_left h2))

theorem tagDisabled_inj : Function.Injective tagDisabled := by
  intro a b h
  have h2 := congrArg String.data h
  simp only [tagDisabled, data_app, List.append_assoc] at h2
  exact String.ext (List.append_cancel_right (List.append_cancel_left h2))

theorem revtake10_tagEnabled (a : String) :
    (tagEnabled a).data.reverse.take 10 = (" (enabled)" : String).data.reverse := by
  have h : (tagEnabled a).data
      = ("- " : String).data ++ (a.data ++ (" (enabled)" : String).data) := by
    simp [tagEnabled, data_app, List.append_assoc]
  rw [h, List.reverse_append, List.reverse_append, List.append_assoc]
  exact List.take_left' (by decide)

theorem revtake10_tagDisabled (a : String) :
    (tagDisabled a).data.reverse.take 10
      = (" (disabled)" : String).data.reverse.take 10 := by
  have h : (tagDisabled a).data
      = ("- " : String).data ++ (a.data ++ (" (disabled)" : String).data) := by
    simp [tagDisabled, data_app, List.append_assoc]
  rw [h, List.reverse_append, List.reverse_append, List.append_assoc]
  exact List.take_append_of_le_length (by decide)

theorem tagEnabled_ne_tagDisabled (a b : String) : tagEnabled a ≠ tagDisabled b := by
  intro h
  have h10 : (tagEnabled a).data.reverse.take 10
      = (tagDisabled b).data.reverse.take 10 := by rw [h]
  rw [revtake10_tagEnabled, revtake10_tagDisabled] at h10
  exact (by decide : ((" (enabled)" : String).data.reverse
    ≠ (" (disabled)" : String).data.reverse.take 10)) h10

theorem tag_ne_of_head {s t : String} (hs : s.data.head? = some '-')
    (ht : ¬ t.data.head? = some '-') : s ≠ t :=
  fun h => ht (h ▸ hs)

theorem tagEnabled_head (a : String) : (tagEnabled a).data.head? = some '-' := rfl

theorem tagDisabled_head (a : String) : (tagDisabled a).data.head? = some '-' := rfl

theorem count_nodup (l : List String) (hl : l.Nodup) (a : String) :
    List.count a l = if a ∈ l then 1 else 0 := by
  induction l with
  | nil => simp
  | cons b t ih =>
    obtain ⟨hb, ht⟩ := List.nodup_cons.mp hl
    rw [List.count_cons, ih ht]
    by_cases hab : b = a
    · subst hab
      simp [hb]
    · simp [hab, Ne.symm hab]

theorem count_map_inj (f : String → String) (hf : Function.Injective f)
    (l : List String) (x : String) :
    List.count (f x) (l.map f) = List.count x l := by
  induction l with
  | nil => rfl
  | cons b t ih =>
    rw [List.map_cons, List.count_cons, List.count_cons, ih]
    by_cases hb : b = x
    · subst hb; simp
    · rw [beq_eq_false_iff_ne.mpr (fun hc => hb (hf hc)),
        beq_eq_false_iff_ne.mpr hb]

/-- C9: in the listSites output every enabled entry appears exactly once
tagged enabled, and every available entry appears tagged disabled exactly
once when it is not enabled and never when it is enabled. -/
theorem listSites_tags (avail enab : List String)
    (ha : avail.Nodup) (he : enab.Nodup) (name : String) :
    List.count (tagEnabled name) (listSitesOutput avail enab)
        = (if name ∈ enab then 1 else 0)
    ∧ List.count (tagDisabled name) (listSitesOutput avail enab)
        = (if name ∈ avail ∧ name ∉ enab then 1 else 0) := by
  have hfn : (avail.filter (fun site => !enab.contains site)).Nodup :=
    List.Nodup.filter _ ha
  have hiff : ∀ x, x ∈ avail.filter (fun site => !enab.contains site)
      ↔ (x ∈ avail ∧ x ∉ enab) := by
    intro x
    simp [List.mem_filter, List.contains]
  constructor
  · rw [listSitesOutput, List.count_cons, List.count_append, List.count_cons,
      count_map_inj tagEnabled tagEnabled_inj]
    have hz : List.count (tagEnabled name)
        ((avail.filter (fun site => !enab.contains site)).map tagDisabled) = 0 := by
      rw [List.count_eq_zero]
      intro hmem
      obtain ⟨b, -, hbe⟩ := List.mem_map.mp hmem
      exact tagEnabled_ne_tagDisabled name b hbe.symm
    rw [hz,
      beq_eq_false_iff_ne.mpr
        (Ne.symm (tag_ne_of_head (tagEnabled_head name) (by decide))),
      beq_eq_false_iff_ne.mpr
        (Ne.symm (tag_ne_of_head (tagEnabled_head name) (by decide))),
      count_nodup enab he name]
    simp
  · rw [listSitesOutput, List.count_cons, List.count_append, List.count_cons,
      count_map_inj tagDisabled tagDisabled_inj]
    have hz : List.count (tagDisabled name) (enab.map tagEnabled) = 0 := by
      rw [List.count_eq_zero]
      intro hmem
      obtain ⟨b, -, hbe⟩ := List.mem_map.mp hmem
      exact tagEnabled_ne_tagDisabled b name hbe
    rw [hz,
      beq_eq_false_iff_ne.mpr
        (Ne.symm (tag_ne_of_head (tagDisabled_head name) (by decide))),
      beq_eq_false_iff_ne.mpr
        (Ne.symm (tag_ne_of_head (tagDisabled_head name) (by decide))),
      count_nodup _ hfn name]
    simp only [Nat.zero_add, Nat.add_zero, if_false]
    by_cases hm : name ∈ avail ∧ name ∉ enab
    · rw [if_pos ((hiff name).mpr hm), if_pos hm]
      simp
    · rw [if_neg (fun hc => hm ((hiff name).mp hc)), if_neg hm]
      simp

/-- C9 witness: the listing theorem applied to the concrete directory
pair where b is both available and enabled and a is available only. -/
theorem listSites_tags_witness :
    List.count (tagEnabled "b") (listSitesOutput ["a", "b"] ["b"]) = 1
    ∧ List.count (tagDisabled "a") (listSitesOutput ["a", "b"] ["b"]) = 1
    ∧ List.count (tagDisabled "b") (listSitesOutput ["a", "b"] ["b"]) = 0 := by
  refine ⟨?_, ?_, ?_⟩
  · have h := (listSites_tags ["a", "b"] ["b"] (by decide) (by decide) "b").1
    simpa using h
  · have h := (listSites_tags ["a", "b"] ["b"] (by decide) (by decide) "a").2
    simpa using h
  · have h := (listSites_tags ["a", "b"] ["b"] (by decide) (by decide) "b").2
    simpa using h

/-! ## Site Manager Tool: exit and error policy

The success of each external command is an oracle boolean; a run result
is the optional exit code (some code when process.exit was called) paired
with the stderr diagnostics. -/

structure NginxWorld where
  nginxInstalled : Bool
  aptUpdateOk : Bool
  aptInstallOk : Bool
  certbotOk : Bool
  reloadOk : Bool

/-- Models ensureNginxInstalled (nginx-cli.js lines 36-51): when nginx is
absent and either apt-get step fails, the error is logged and the process
exits with status 1. -/
def ensureNginxRun (w : NginxWorld) : Option Nat × List String :=
  if w.nginxInstalled then (none, [])
  else if w.aptUpdateOk && w.aptInstallOk then (none, [])
  else (some 1, ["Failed to install Nginx:"])

/-- Models obtainSSLCertificate (lines 200-211): certbot failure is caught
and logged to stderr. -/
def obtainSSLRun (w : NginxWorld) : List String :=
  if w.certbotOk then [] else ["Error obtaining SSL certificate:"]

/-- Models reloadNginx (lines 213-221): reload failure is caught and
logged to stderr. -/
def reloadRun (w : NginxWorld) : List String :=
  if w.reloadOk then [] else ["Error reloading Nginx:"]

/-- Control flow of addSite (lines 53-99) over the command oracles. -/
def addSiteRun (w : NginxWorld) (useDomain useSSL : Bool) :
    Option Nat × List String :=
  match ensureNginxRun w with
  | (some c, logs) => (some c, logs)
  | (none, logs) =>
      (none, logs ++ (if useDomain && useSSL then obtainSSLRun w else [])
        ++ reloadRun w)

/-- Control flow of removeSite (lines 101-126) over the command oracles. -/
def removeSiteRun (w : NginxWorld) : Option Nat × List String :=
  match ensureNginxRun w with
  | (some c, logs) => (some c, logs)
  | (none, logs) => (none, logs ++ reloadRun w)

/-- Control flow of listSites (lines 128-145) over the command oracles. -/
def listSitesRun (w : NginxWorld) : Option Nat × List String :=
  match ensureNginxRun w with
  | (some c, logs) => (some c, logs)
  | (none, logs) => (none, logs)

def nginxInstallFailed (w : NginxWorld) : Prop :=
  w.nginxInstalled = false ∧ (w.aptUpdateOk && w.aptInstallOk) = false

/-- C6: each Site Manager subcommand exits with a non-zero status exactly
when nginx installation fails (and then with status 1); certbot and
reload failures are logged to stderr while the run continues to
completion. -/
theorem siteManager_exit_policy (ni au ai cb rl uD uS : Bool) :
    ((addSiteRun ⟨ni, au, ai, cb, rl⟩ uD uS).1 ≠ none
        ↔ nginxInstallFailed ⟨ni, au, ai, cb, rl⟩)
    ∧ ((removeSiteRun ⟨ni, au, ai, cb, rl⟩).1 ≠ none
        ↔ nginxInstallFailed ⟨ni, au, ai, cb, rl⟩)
    ∧ ((listSitesRun ⟨ni, au, ai, cb, rl⟩).1 ≠ none
        ↔ nginxInstallFailed ⟨ni, au, ai, cb, rl⟩)
    ∧ (nginxInstallFailed ⟨ni, au, ai, cb, rl⟩ →
        (addSiteRun ⟨ni, au, ai, cb, rl⟩ uD uS).1 = some 1)
    ∧ (¬ nginxInstallFailed ⟨ni, au, ai, cb, rl⟩ → uD = true → uS = true →
        cb = false →
        (addSiteRun ⟨ni, au, ai, cb, rl⟩ uD uS).1 = none
        ∧ "Error obtaining SSL certificate:"
            ∈ (addSiteRun ⟨ni, au, ai, cb, rl⟩ uD uS).2)
    ∧ (¬ nginxInstallFailed ⟨ni, au, ai, cb, rl⟩ → rl = false →
        (addSiteRun ⟨ni, au, ai, cb, rl⟩ uD uS).1 = none
        ∧ "Error reloading Nginx:" ∈ (addSiteRun ⟨ni, au, ai, cb, rl⟩ uD uS).2) := by
  cases ni <;> cases au <;> cases ai <;> cases cb <;> cases rl <;> cases uD <;> cases uS <;>
    simp [addSiteRun, removeSiteRun, listSitesRun, ensureNginxRun, obtainSSLRun,
      reloadRun, nginxInstallFailed]

/-- C6 witness: a failed installation exits with status 1; a reload
failure after a successful installation check only logs to stderr. -/
theorem siteManager_exit_policy_witness :
    (addSiteRun ⟨false, false, true, true, true⟩ true true).1 = some 1
    ∧ (addSiteRun ⟨true, true, true, true, false⟩ true true).1 = none
    ∧ "Error reloading Nginx:" ∈ (addSiteRun ⟨true, true, true, true, false⟩ true true).2 :=
  ⟨(siteManager_exit_policy false false true true true true true).2.2.2.1
      ⟨rfl, rfl⟩,
   ((siteManager_exit_policy true true true true false true true).2.2.2.2.2
      (fun hc => Bool.noConfusion hc.1) rfl).1,
   ((siteManager_exit_policy true true true true false true true).2.2.2.2.2
      (fun hc => Bool.noConfusion hc.1) rfl).2⟩

/-! ## App Setup Tool: Docker artifacts

Chunks of the template literals of generateDockerfiles (app-setup-cli.js
lines 74-108) and generateDockerCompose (lines 110-135); apostrophes are
written with the escape \x27. -/

def frontendDockerfileContent : String :=
  "\nFROM node:14\nWORKDIR /app\nCOPY package*.json ./\nRUN npm install\nCOPY . .\nRUN npm run build\nEXPOSE 3000\nCMD [\"npm\", \"start\"]\n  "

def backendDockerfileContent : String :=
  "\nFROM node:14\nWORKDIR /app\nCOPY package*.json ./\nRUN npm install\nCOPY . .\nEXPOSE 5000\nCMD [\"npm\", \"start\"]\n  "

def dcPre : String :=
  "\nversion: \x273\x27\nservices:\n  frontend:\n    build: ./frontend\n    ports:\n      - "

def dcQuote : String := "\""

def dcFront : String := ":3000\""

def dcMid : String :=
  "\n    environment:\n      - NODE_ENV=production\n\n  backend:\n    build: ./backend\n    ports:\n      - "

def dcBack : String := ":5000\""

def dcPost : String := "\n    environment:\n      - NODE_ENV=production\n  "

/-- Embedding of the docker-compose.yml content written by
generateDockerCompose (lines 110-135). -/
def generateDockerCompose (frontendPort backendPort : String) : String :=
  dcPre ++ dcQuote ++ frontendPort ++ dcFront
    ++ dcMid ++ dcQuote ++ backendPort ++ dcBack ++ dcPost

/-- C4: the compose file maps host ports equal to the supplied values
onto the fixed container ports 3000 and 5000, and the Dockerfiles (which
do not depend on the configured ports at all) expose 3000 and 5000. -/
theorem dockerArtifacts_ports (fp bp : String) :
    containsStr ("\"" ++ fp ++ ":3000\"") (generateDockerCompose fp bp)
    ∧ containsStr ("\"" ++ bp ++ ":5000\"") (generateDockerCompose fp bp)
    ∧ containsStr "EXPOSE 3000" frontendDockerfileContent
    ∧ containsStr "EXPOSE 5000" backendDockerfileContent := by
  refine ⟨?_, ?_, by decide, by decide⟩
  · exact ⟨dcPre.data,
      dcMid.data ++ dcQuote.data ++ bp.data ++ dcBack.data ++ dcPost.data,
      by simp [generateDockerCompose, dcQuote, dcFront, data_app, List.append_assoc]⟩
  · exact ⟨dcPre.data ++ dcQuote.data ++ fp.data ++ dcFront.data ++ dcMid.data,
      dcPost.data,
      by simp [generateDockerCompose, dcQuote, dcBack, data_app, List.append_assoc]⟩

/-! ## App Setup Tool: metadata record

The metadata object written by generateMetadata (app-setup-cli.js lines
137-153) holds the three collected values, all strings (flags and
prompt answers are strings).  fs.writeJson serializes it with two-space
indentation and a trailing newline; fs.readJson parses it back.  The
serializer and the parser for this object shape are modelled below:
string values are escaped (quote and backslash) on writing and unescaped
on reading. -/

structure Metadata where
  domain : String
  frontendPort : String
  backendPort : String
deriving DecidableEq

/-- JSON string-body escaping as performed by JSON.stringify for the
quote and backslash characters. -/
def escJson : List Char → List Char
  | [] => []
  | c :: cs =>
    if c = '"' ∨ c = '\\' then '\\' :: c :: escJson cs else c :: escJson cs

/-- JSON string-body parsing as performed by JSON.parse: consumes up to
and including the closing quote, mapping an escape pair back to the
escaped character; returns the decoded body and the remaining input. -/
def parseJsonStr : List Char → Option (List Char × List Char)
  | [] => none
  | c :: rest =>
    if c = '"' then some ([], rest)
    else if c = '\\' then
      match rest with
      | [] => none
      | c2 :: rest2 => (parseJsonStr rest2).map fun p => (c2 :: p.1, p.2)
    else (parseJsonStr rest).map fun p => (c :: p.1, p.2)

/-- Consumes an expected literal piece of input. -/
def dropLit (lit s : List Char) : Option (List Char) :=
  if lit.isPrefixOf s then some (s.drop lit.length) else none

def mdLit1 : List Char := "\x7b\n  \"domain\": \"".data

def mdLit2 : List Char := ",\n  \"frontendPort\": \"".data

def mdLit3 : List Char := ",\n  \"backendPort\": \"".data

def mdLit4 : List Char := "\n\x7d\n".data

/-- Models fs.writeJson(path, metadata, spaces 2) (line 151):
JSON.stringify of the three-field object with two-space indentation plus
the trailing newline that jsonfile appends. -/
def writeJsonMetadata (m : Metadata) : String :=
  ⟨mdLit1 ++ (escJson m.domain.data ++ ('"' :: (mdLit2
    ++ (escJson m.frontendPort.data ++ ('"' :: (mdLit3
    ++ (escJson m.backendPort.data ++ ('"' :: mdLit4))))))))⟩

/-- Models fs.readJson (JSON.parse) on the metadata object shape. -/
def readJsonMetadata (s : List Char) : Option Metadata := do
  let s1 ← dropLit mdLit1 s
  let (d, s2) ← parseJsonStr s1
  let s3 ← dropLit mdLit2 s2
  let (f, s4) ← parseJsonStr s3
  let s5 ← dropLit mdLit3 s4
  let (b, s6) ← parseJsonStr s5
  if s6 = mdLit4 then some ⟨⟨d⟩, ⟨f⟩, ⟨b⟩⟩ else none

/-- Model of path.join(projectPath, name) as used here. -/
def pathJoin (a b : String) : String := a ++ "/" ++ b

/-- Embedding of generateMetadata (lines 137-153): the file path and the
serialized content it writes. -/
def generateMetadata (projectPath domain frontendPort backendPort : String) :
    String × String :=
  (pathJoin projectPath "metadata.json",
   writeJsonMetadata ⟨domain, frontendPort, backendPort⟩)

theorem parseJsonStr_quote (rest : List Char) :
    parseJsonStr ('"' :: rest) = some ([], rest) := by
  rw [parseJsonStr.eq_def]
  simp

theorem parseJsonStr_esc (c : Char) (E : List Char) :
    parseJsonStr ('\\' :: c :: E) = (parseJsonStr E).map fun p => (c :: p.1, p.2) := by
  rw [parseJsonStr.eq_def]
  simp

theorem parseJsonStr_plain (c : Char) (E : List Char) (h1 : c ≠ '"') (h2 : c ≠ '\\') :
    parseJsonStr (c :: E) = (parseJsonStr E).map fun p => (c :: p.1, p.2) := by
  rw [parseJsonStr.eq_def]
  simp [h1, h2]

theorem parse_escJson (s rest : List Char) :
    parseJsonStr (escJson s ++ ('"' :: rest)) = some (s, rest) := by
  induction s with
  | nil =>
    show parseJsonStr ('"' :: rest) = some ([], rest)
    exact parseJsonStr_quote rest
  | cons c cs ih =>
    by_cases hc : c = '"' ∨ c = '\\'
    · rw [escJson, if_pos hc]
      show parseJsonStr ('\\' :: c :: (escJson cs ++ ('"' :: rest))) = _
      rw [parseJsonStr_esc, ih]
      rfl
    · push_neg at hc
      rw [escJson, if_neg (by simp [hc.1, hc.2])]
      show parseJsonStr (c :: (escJson cs ++ ('"' :: rest))) = _
      rw [parseJsonStr_plain c _ hc.1 hc.2, ih]
      rfl

theorem dropLit_pre (lit r : List Char) : dropLit lit (lit ++ r) = some r := by
  simp [dropLit, List.isPrefixOf_iff_prefix, List.drop_left]

theorem writeJson_readJson (m : Metadata) :
    readJsonMetadata (writeJsonMetadata m).data = some m := by
  obtain ⟨d, f, b⟩ := m
  show readJsonMetadata (mdLit1 ++ (escJson d.data ++ ('"' :: (mdLit2
    ++ (escJson f.data ++ ('"' :: (mdLit3
    ++ (escJson b.data ++ ('"' :: mdLit4))))))))) = _
  rw [readJsonMetadata, dropLit_pre]
  simp only [Option.bind_eq_bind, Option.some_bind]
  rw [parse_escJson]
  simp only [Option.some_bind]
  rw [dropLit_pre]
  simp only [Option.some_bind]
  rw [parse_escJson]
  simp only [Option.some_bind]
  rw [dropLit_pre]
  simp only [Option.some_bind]
  rw [parse_escJson]
  simp only [Option.some_bind]
  simp

/-- C5: metadata.json is written at the project path and parses back to
exactly the three supplied values: strings preserved unchanged, no
numeric coercion. -/
theorem generateMetadata_roundtrip (p d f b : String) :
    (generateMetadata p d f b).1 = pathJoin p "metadata.json"
    ∧ readJsonMetadata ((generateMetadata p d f b).2).data = some ⟨d, f, b⟩ :=
  ⟨rfl, writeJson_readJson ⟨d, f, b⟩⟩

/-! ## App Setup Tool: control flow -/

structure AppWorld where
  frontendWriteOk : Bool
  backendWriteOk : Bool
  composeWriteOk : Bool
  metadataWriteOk : Bool
  dockerUpOk : Bool
  pm2InstallOk : Bool

/-- Models generateDockerfiles (lines 74-108): a filesystem failure
propagates as an error; success prints its console message. -/
def generateDockerfilesRun (w : AppWorld) : Except String (List String) :=
  if w.frontendWriteOk then
    if w.backendWriteOk then Except.ok ["Dockerfiles generated successfully."]
    else Except.error "backend Dockerfile write failed"
  else Except.error "frontend Dockerfile write failed"

/-- Models generateDockerCompose (lines 110-135) at the error-policy
level. -/
def generateDockerComposeRun (w : AppWorld) : Except String (List String) :=
  if w.composeWriteOk then Except.ok ["docker-compose.yml generated successfully."]
  else Except.error "docker-compose.yml write failed"

/-- Models generateMetadata (lines 137-153) at the error-policy level. -/
def generateMetadataRun (w : AppWorld) : Except String (List String) :=
  if w.metadataWriteOk then Except.ok ["metadata.json generated successfully."]
  else Except.error "metadata.json write failed"

/-- Models startDockerContainers (lines 155-163): failure is caught,
logged to stderr, and execution continues. -/
def startDockerContainersRun (w : AppWorld) : List String × List String :=
  if w.dockerUpOk then
    (["Starting Docker containers...", "Docker containers started successfully."], [])
  else (["Starting Docker containers..."], ["Error starting Docker containers:"])

/-- Models installPM2 (lines 165-173): failure is caught, logged to
stderr, and execution continues. -/
def installPM2Run (w : AppWorld) : List String × List String :=
  if w.pm2InstallOk then (["Installing PM2...", "PM2 installed successfully."], [])
  else (["Installing PM2..."], ["Error installing PM2:"])

/-- Models main (lines 175-195) and its top-level catch: result is the
exit code, the stdout lines and the stderr lines. -/
def appSetupMain (w : AppWorld) (pm2 : Bool) : Nat × List String × List String :=
  match generateDockerfilesRun w with
  | Except.error _ => (1, [], ["An error occurred:"])
  | Except.ok out1 =>
    match generateDockerComposeRun w with
    | Except.error _ => (1, out1, ["An error occurred:"])
    | Except.ok out2 =>
      match generateMetadataRun w with
      | Except.error _ => (1, out1 ++ out2, ["An error occurred:"])
      | Except.ok out3 =>
        let d := startDockerContainersRun w
        let p := if pm2 then installPM2Run w else ([], [])
        (0, out1 ++ out2 ++ out3 ++ d.1 ++ p.1 ++ ["App setup completed successfully!"],
         d.2 ++ p.2)

/-- C7: container-launch and PM2-install failures are caught and logged
while the run still prints the completion message and exits 0; any
file-generation failure prints an error and exits 1 without the
completion message. -/
theorem appSetup_error_policy (wf wb wc wm du pi pm2 : Bool) :
    ((appSetupMain ⟨wf, wb, wc, wm, du, pi⟩ pm2).1 = 0
        ↔ (wf && wb && wc && wm) = true)
    ∧ ((wf && wb && wc && wm) = true →
        "App setup completed successfully!" ∈ (appSetupMain ⟨wf, wb, wc, wm, du, pi⟩ pm2).2.1
        ∧ (du = false →
            "Error starting Docker containers:" ∈ (appSetupMain ⟨wf, wb, wc, wm, du, pi⟩ pm2).2.2)
        ∧ (pm2 = true → pi = false →
            "Error installing PM2:" ∈ (appSetupMain ⟨wf, wb, wc, wm, du, pi⟩ pm2).2.2))
    ∧ ((wf && wb && wc && wm) = false →
        (appSetupMain ⟨wf, wb, wc, wm, du, pi⟩ pm2).1 = 1
        ∧ "An error occurred:" ∈ (appSetupMain ⟨wf, wb, wc, wm, du, pi⟩ pm2).2.2
        ∧ "App setup completed successfully!" ∉ (appSetupMain ⟨wf, wb, wc, wm, du, pi⟩ pm2).2.1) := by
  cases wf <;> cases wb <;> cases wc <;> cases wm <;> cases du <;> cases pi <;> cases pm2 <;>
    simp [appSetupMain, generateDockerfilesRun, generateDockerComposeRun,
      generateMetadataRun, startDockerContainersRun, installPM2Run]

/-- C7 witness: with all writes succeeding but docker-compose up and the
PM2 install failing, the run exits 0, logs both errors, and still prints
the completion message; with a failing metadata write it exits 1. -/
theorem appSetup_error_policy_witness :
    (appSetupMain ⟨true, true, true, true, false, false⟩ true).1 = 0
    ∧ "App setup completed successfully!"
        ∈ (appSetupMain ⟨true, true, true, true, false, false⟩ true).2.1
    ∧ "Error starting Docker containers:"
        ∈ (appSetupMain ⟨true, true, true, true, false, false⟩ true).2.2
    ∧ "Error installing PM2:"
        ∈ (appSetupMain ⟨true, true, true, true, false, false⟩ true).2.2
    ∧ (appSetupMain ⟨true, true, true, false, true, true⟩ false).1 = 1 :=
  ⟨(appSetup_error_policy true true true true false false true).1.mpr rfl,
   ((appSetup_error_policy true true true true false false true).2.1 rfl).1,
   ((appSetup_error_policy true true true true false false true).2.1 rfl).2.1 rfl,
   ((appSetup_error_policy true true true true false false true).2.1 rfl).2.2 rfl rfl,
   ((appSetup_error_policy true true true false true true false).2.2 rfl).1⟩

end DeployTool
